import Mathlib

/-!
Shallow embedding of the Blogicum blog application (blog/models.py and
blog/views.py) and verification of its specification.

The database is modelled as lists of records; Django querysets become list
filters; the default Meta ordering becomes an insertion sort; a request's
user is an `Option Nat` (none = anonymous).  Posts carry their joined
category and location rows inline (`Option Category` / `Option Location`
mirror the nullable SET_NULL foreign keys).
-/

namespace Blogicum

/-- Category row (models.Category): slug plus the BaseModel is_published flag. -/
structure Category where
  slug : String
  is_published : Bool
deriving DecidableEq, Repr

/-- Location row (models.Location): name plus the BaseModel is_published flag. -/
structure Location where
  name : String
  is_published : Bool
deriving DecidableEq, Repr

/-- Post row (models.Post).  `author` is the user id; `category` and
`location` are the joined rows of the nullable SET_NULL foreign keys. -/
structure Post where
  id : Nat
  title : String
  author : Nat
  pub_date : Int
  is_published : Bool
  category : Option Category
  location : Option Location
deriving DecidableEq, Repr

/-- Comment row (models.Comment). -/
structure Comment where
  id : Nat
  text : String
  post_id : Nat
  author : Nat
  created_at : Int
deriving DecidableEq, Repr

/-- Ordering relation of Post.Meta: `ordering = ('-pub_date',)` (descending). -/
def pubDateDesc (a b : Post) : Prop := b.pub_date ≤ a.pub_date

instance : DecidableRel pubDateDesc :=
  fun a b => inferInstanceAs (Decidable (b.pub_date ≤ a.pub_date))

instance : IsTotal Post pubDateDesc := ⟨fun a b => le_total b.pub_date a.pub_date⟩

instance : IsTrans Post pubDateDesc := ⟨fun _ _ _ hab hbc => le_trans hbc hab⟩

/-- Ordering relation of Comment.Meta: `ordering = ('created_at',)` (ascending). -/
def createdAtAsc (a b : Comment) : Prop := a.created_at ≤ b.created_at

instance : DecidableRel createdAtAsc :=
  fun a b => inferInstanceAs (Decidable (a.created_at ≤ b.created_at))

instance : IsTotal Comment createdAtAsc := ⟨fun a b => le_total a.created_at b.created_at⟩

instance : IsTrans Comment createdAtAsc := ⟨fun _ _ _ hab hbc => le_trans hab hbc⟩

/-- Spec section 4.1, public part, written from the spec words for comparison
with the code: is_published, the category is published IF one is set, the
location is published IF one is set, and pub_date is at most now. -/
def spec_visible (now : Int) (p : Post) : Bool :=
  p.is_published
    && (match p.category with | some c => c.is_published | none => true)
    && (match p.location with | some l => l.is_published | none => true)
    && decide (p.pub_date ≤ now)

/-- Spec section 4.1 with the author exception: visible to the requester when
the public predicate holds or the requester is the author. -/
def spec_visible_to (now : Int) (requester : Option Nat) (p : Post) : Bool :=
  spec_visible now p || requester == some p.author

/-- PublishedPostsManager.get_queryset (models.py): filter on
pub_date <= now, is_published, category is_published and location
is_published.  The Django lookups `category__is_published=True` and
`location__is_published=True` join through the nullable foreign keys, so a
row whose category or location is NULL does not match. -/
def published_posts_filter (now : Int) (db : List Post) : List Post :=
  db.filter fun p =>
    decide (p.pub_date ≤ now) && p.is_published
      && (match p.category with | some c => c.is_published | none => false)
      && (match p.location with | some l => l.is_published | none => false)

/-- IndexListView (views.py): the published-posts queryset in the default
Post.Meta ordering, pub_date descending. -/
def index_listing (now : Int) (db : List Post) : List Post :=
  (published_posts_filter now db).insertionSort pubDateDesc

lemma match_cat_published_true (o : Option Category) :
    (match o with | some c => c.is_published | none => false) = true ↔
      ∃ c, o = some c ∧ c.is_published = true := by
  cases o <;> simp

lemma match_loc_published_true (o : Option Location) :
    (match o with | some l => l.is_published | none => false) = true ↔
      ∃ l, o = some l ∧ l.is_published = true := by
  cases o <;> simp

/-- Membership in the index listing, unfolded to the source filter. -/
lemma mem_index_listing (now : Int) (db : List Post) (p : Post) :
    p ∈ index_listing now db ↔
      p ∈ db ∧ p.pub_date ≤ now ∧ p.is_published = true ∧
        (∃ c, p.category = some c ∧ c.is_published = true) ∧
        (∃ l, p.location = some l ∧ l.is_published = true) := by
  unfold index_listing published_posts_filter
  rw [List.mem_insertionSort, List.mem_filter]
  simp only [Bool.and_eq_true, decide_eq_true_eq, match_cat_published_true,
    match_loc_published_true]
  tauto

/-- C1: the claim states a post with no category or no location but
publishable otherwise is publicly visible and listed on the index page; the
code's filter excludes any post whose category or location is NULL. -/
theorem C1_counterexample :
    spec_visible 0 (Post.mk 1 "a" 1 0 true none none) = true ∧
      Post.mk 1 "a" 1 0 true none none ∉
        index_listing 0 [Post.mk 1 "a" 1 0 true none none] := by
  decide

/-- C1 (amended): a post appears in the index listing exactly when
is_published holds, pub_date is at most now, and its category and location
are both set and published; posts with a NULL category or location are
excluded even when the remaining conditions hold. -/
theorem C1_amended (now : Int) (db : List Post) (p : Post) :
    p ∈ index_listing now db ↔
      p ∈ db ∧ p.pub_date ≤ now ∧ p.is_published = true ∧
        (∃ c, p.category = some c ∧ c.is_published = true) ∧
        (∃ l, p.location = some l ∧ l.is_published = true) :=
  mem_index_listing now db p

/-- category_posts view (views.py): get_object_or_404 on a published Category
with the slug (404 when none), then the category's posts filtered only on
is_published and pub_date <= now, in the default pub_date-descending order.
The requester plays no role at all in this view. -/
def category_posts (now : Int) (cats : List Category) (db : List Post)
    (slug : String) : Option (List Post) :=
  match cats.find? (fun c => c.slug == slug && c.is_published) with
  | none => none
  | some c =>
      some ((db.filter fun p =>
        p.category == some c && p.is_published && decide (p.pub_date ≤ now)
        ).insertionSort pubDateDesc)

/-- C2: the claim states the full section 4.1 predicate, location clause and
author exception included, governs the category listing.  The code checks
neither: an unpublished-location post appears for an anonymous requester
although the predicate rejects it. -/
theorem C2_counterexample :
    category_posts 0 [Category.mk "cat" true]
        [Post.mk 1 "a" 1 0 true (some (Category.mk "cat" true))
          (some (Location.mk "loc" false))] "cat" =
      some [Post.mk 1 "a" 1 0 true (some (Category.mk "cat" true))
          (some (Location.mk "loc" false))] ∧
    spec_visible_to 0 none
        (Post.mk 1 "a" 1 0 true (some (Category.mk "cat" true))
          (some (Location.mk "loc" false))) = false := by
  decide

/-- C2 (amended): the category listing is independent of the requester; when a
published category with the slug exists, a post appears in the listing exactly
when it belongs to that category, its own is_published is true and its
pub_date is at most now — the location flags and the authorship of the post
are not consulted. -/
theorem C2_amended (now : Int) (cats : List Category) (db : List Post)
    (slug : String) (c : Category)
    (hc : cats.find? (fun c => c.slug == slug && c.is_published) = some c)
    (p : Post) :
    p ∈ (category_posts now cats db slug).getD [] ↔
      p ∈ db ∧ p.category = some c ∧ p.is_published = true ∧
        p.pub_date ≤ now := by
  unfold category_posts
  rw [hc]
  simp only [Option.getD_some, List.mem_insertionSort, List.mem_filter,
    Bool.and_eq_true, decide_eq_true_eq, beq_iff_eq]
  tauto

/-- Witness for C2_amended at a concrete published category and post. -/
theorem C2_amended_witness :
    Post.mk 1 "a" 1 0 true (some (Category.mk "cat" true)) none ∈
        (category_posts 0 [Category.mk "cat" true]
          [Post.mk 1 "a" 1 0 true (some (Category.mk "cat" true)) none]
          "cat").getD [] ↔
      Post.mk 1 "a" 1 0 true (some (Category.mk "cat" true)) none ∈
          [Post.mk 1 "a" 1 0 true (some (Category.mk "cat" true)) none] ∧
        (Post.mk 1 "a" 1 0 true (some (Category.mk "cat" true)) none).category
            = some (Category.mk "cat" true) ∧
        (Post.mk 1 "a" 1 0 true (some (Category.mk "cat" true)) none
            ).is_published = true ∧
        (Post.mk 1 "a" 1 0 true (some (Category.mk "cat" true)) none
            ).pub_date ≤ 0 :=
  C2_amended 0 [Category.mk "cat" true]
    [Post.mk 1 "a" 1 0 true (some (Category.mk "cat" true)) none]
    "cat" (Category.mk "cat" true) (by decide) _

/-- Outcome of PostDetailView.dispatch: the page renders, an Http404 is
raised, or evaluation of the visibility test raises an unhandled
AttributeError (reading is_published from a None category or location). -/
inductive DetailOutcome where
  | success : DetailOutcome
  | http404 : DetailOutcome
  | attrError : DetailOutcome
deriving DecidableEq, Repr

/-- PostDetailView.dispatch (views.py), with the Python short-circuit
evaluation of
`(post.is_published and post.category.is_published and
post.location.is_published and post.pub_date <= now) or
post.author == request.user`
made explicit: once is_published is true the category attribute is read, and
a None category (likewise a None location after a published category) raises
AttributeError before the author fallback is ever consulted. -/
def post_detail_dispatch (now : Int) (db : List Post)
    (requester : Option Nat) (post_id : Nat) : DetailOutcome :=
  match db.find? (fun p => p.id == post_id) with
  | none => .http404
  | some p =>
    if p.is_published then
      match p.category with
      | none => .attrError
      | some c =>
        if c.is_published then
          match p.location with
          | none => .attrError
          | some l =>
            if l.is_published && decide (p.pub_date ≤ now) then .success
            else if requester == some p.author then .success else .http404
        else if requester == some p.author then .success else .http404
    else if requester == some p.author then .success else .http404

/-- C3: the claim states retrieval succeeds exactly on the section 4.1
predicate or authorship and otherwise yields 404; on a post with a NULL
category the predicate holds vacuously yet the code raises AttributeError,
neither success nor 404. -/
theorem C3_counterexample :
    spec_visible 0 (Post.mk 2 "b" 1 0 true none (some (Location.mk "loc" true)))
        = true ∧
      post_detail_dispatch 0
        [Post.mk 2 "b" 1 0 true none (some (Location.mk "loc" true))] none 2 =
        DetailOutcome.attrError := by
  decide

/-- C3 (amended): for a stored post whose category and location are both set,
retrieval succeeds exactly when the public predicate holds or the requester
is the author, and otherwise fails with Http404. -/
theorem C3_amended (now : Int) (db : List Post) (requester : Option Nat)
    (post_id : Nat) (p : Post) (c : Category) (l : Location)
    (hf : db.find? (fun q => q.id == post_id) = some p)
    (hc : p.category = some c) (hl : p.location = some l) :
    post_detail_dispatch now db requester post_id =
      (if spec_visible now p || requester == some p.author
        then DetailOutcome.success else DetailOutcome.http404) := by
  unfold post_detail_dispatch spec_visible
  rw [hf]
  simp only [hc, hl]
  cases hp : p.is_published <;> cases hcp : c.is_published <;>
    cases hlp : l.is_published <;> cases hd : decide (p.pub_date ≤ now) <;>
    cases hr : requester == some p.author <;>
    simp [hp, hcp, hlp, hd, hr]

/-- Witness for C3_amended at a concrete published post viewed anonymously. -/
theorem C3_amended_witness :
    post_detail_dispatch 0
        [Post.mk 3 "c" 1 0 true (some (Category.mk "cat" true))
          (some (Location.mk "loc" true))] none 3 =
      (if spec_visible 0
            (Post.mk 3 "c" 1 0 true (some (Category.mk "cat" true))
              (some (Location.mk "loc" true))) || none == some
            (Post.mk 3 "c" 1 0 true (some (Category.mk "cat" true))
              (some (Location.mk "loc" true))).author
        then DetailOutcome.success else DetailOutcome.http404) :=
  C3_amended 0
    [Post.mk 3 "c" 1 0 true (some (Category.mk "cat" true))
      (some (Location.mk "loc" true))] none 3 _
    (Category.mk "cat" true) (Location.mk "loc" true) (by decide) rfl rfl

/-- C10: evaluating PostDetailView.dispatch on a stored post whose category
foreign key is NULL (a state the SET_NULL data model permits) and whose
is_published is true raises AttributeError for an anonymous requester instead
of returning an HTTP response. -/
theorem C10_bug_eval :
    post_detail_dispatch 0
        [Post.mk 7 "g" 1 0 true none (some (Location.mk "loc" true))] none 7 =
      DetailOutcome.attrError := by
  decide

/-- user_profile view (views.py): get_object_or_404 on the user (404 when the
username is unknown), then the user's posts; unless the requester IS that
user, the posts are narrowed by the same four-way filter as the published
manager; default pub_date-descending order. -/
def profile_shown (now : Int) (db : List Post) (requester : Option Nat)
    (username : Nat) : List Post :=
  if requester == some username then db.filter fun p => p.author == username
  else (db.filter fun p => p.author == username).filter fun p =>
    decide (p.pub_date ≤ now) && p.is_published
      && (match p.category with | some c => c.is_published | none => false)
      && (match p.location with | some l => l.is_published | none => false)

def user_profile (now : Int) (users : List Nat) (db : List Post)
    (requester : Option Nat) (username : Nat) : Option (List Post) :=
  if users.contains username then
    some ((profile_shown now db requester username).insertionSort pubDateDesc)
  else none

/-- C4: an author requesting the own profile sees every own post regardless
of the publication flags and dates; any other requester sees only posts
satisfying the public predicate of section 4.1. -/
theorem C4_profile (now : Int) (users : List Nat) (db : List Post) (u : Nat)
    (p : Post) (hu : users.contains u = true) :
    (p ∈ db ∧ p.author = u →
      p ∈ (user_profile now users db (some u) u).getD []) ∧
    (∀ r, r ≠ some u →
      p ∈ (user_profile now users db r u).getD [] →
        spec_visible now p = true) := by
  constructor
  · intro ⟨hm, ha⟩
    have hu2 : u ∈ users := by simpa using hu
    simp [user_profile, profile_shown, hu2, ha, hm, List.mem_insertionSort,
      List.mem_filter]
  · intro r hr hp
    have hne : (r == some u) = false := beq_eq_false_iff_ne.mpr hr
    simp only [user_profile, profile_shown, hu, if_true, hne,
      Bool.false_eq_true, if_false, Option.getD_some, List.mem_insertionSort,
      List.mem_filter, Bool.and_eq_true, decide_eq_true_eq,
      match_cat_published_true, match_loc_published_true] at hp
    obtain ⟨-, ⟨⟨⟨hd, hpub⟩, ⟨c, hcsome, hcpub⟩⟩, ⟨l, hlsome, hlpub⟩⟩⟩ := hp
    unfold spec_visible
    rw [hcsome, hlsome]
    simp [hd, hpub, hcpub, hlpub]

/-- Witness for C4_profile at a concrete user and unpublished post. -/
theorem C4_profile_witness :
    (Post.mk 4 "d" 1 0 false none none ∈
          [Post.mk 4 "d" 1 0 false none none] ∧
        (Post.mk 4 "d" 1 0 false none none).author = 1 →
      Post.mk 4 "d" 1 0 false none none ∈
        (user_profile 0 [1] [Post.mk 4 "d" 1 0 false none none]
          (some 1) 1).getD []) ∧
    (∀ r, r ≠ some 1 →
      Post.mk 4 "d" 1 0 false none none ∈
        (user_profile 0 [1] [Post.mk 4 "d" 1 0 false none none] r 1).getD [] →
        spec_visible 0 (Post.mk 4 "d" 1 0 false none none) = true) :=
  C4_profile 0 [1] [Post.mk 4 "d" 1 0 false none none] 1
    (Post.mk 4 "d" 1 0 false none none) (by decide)

/-- Outcome of a mutation request: redirect to login, redirect to a post's
detail page, Http404, the form redisplayed, or the operation proceeding. -/
inductive MutOutcome where
  | redirectLogin : MutOutcome
  | redirectDetail : Nat → MutOutcome
  | http404 : MutOutcome
  | redisplayForm : MutOutcome
  | proceeded : MutOutcome
deriving DecidableEq, Repr

/-- LoginRequiredMixin followed by PostModificationMixin.dispatch (views.py):
anonymous requesters are sent to login, a missing post gives 404, a
non-author is redirected to the post's detail page, the author proceeds. -/
def post_modification_dispatch (db : List Post) (requester : Option Nat)
    (post_id : Nat) : MutOutcome :=
  match requester with
  | none => .redirectLogin
  | some u =>
    match db.find? (fun p => p.id == post_id) with
    | none => .http404
    | some p => if p.author == u then .proceeded else .redirectDetail p.id

/-- PostUpdateView (views.py): the edit function (the validated form) is
applied to the stored post only when the dispatch proceeds. -/
def post_update (db : List Post) (requester : Option Nat) (post_id : Nat)
    (edit : Post → Post) : MutOutcome × List Post :=
  match post_modification_dispatch db requester post_id with
  | .proceeded =>
      (.proceeded, db.map fun p => if p.id == post_id then edit p else p)
  | o => (o, db)

/-- PostDeleteView (views.py): the post is removed only when the dispatch
proceeds. -/
def post_delete (db : List Post) (requester : Option Nat) (post_id : Nat) :
    MutOutcome × List Post :=
  match post_modification_dispatch db requester post_id with
  | .proceeded => (.proceeded, db.filter fun p => !(p.id == post_id))
  | o => (o, db)

/-- C5: an authenticated requester who is not the author of a stored post
receives, on edit and on delete, a redirect to that post's detail page, and
the stored posts are unchanged. -/
theorem C5_nonauthor_redirect (db : List Post) (u : Nat) (post_id : Nat)
    (p : Post) (edit : Post → Post)
    (hf : db.find? (fun q => q.id == post_id) = some p)
    (hne : p.author ≠ u) :
    post_update db (some u) post_id edit = (.redirectDetail p.id, db) ∧
    post_delete db (some u) post_id = (.redirectDetail p.id, db) := by
  have hb : (p.author == u) = false := beq_eq_false_iff_ne.mpr hne
  simp [post_update, post_delete, post_modification_dispatch, hf, hb]

/-- Witness for C5_nonauthor_redirect: user 2 attempts to edit and delete a
post authored by user 1. -/
theorem C5_nonauthor_redirect_witness :
    post_update [Post.mk 5 "e" 1 0 true none none] (some 2) 5
        (fun p => { p with title := "x" }) =
      (MutOutcome.redirectDetail (Post.mk 5 "e" 1 0 true none none).id,
        [Post.mk 5 "e" 1 0 true none none]) ∧
    post_delete [Post.mk 5 "e" 1 0 true none none] (some 2) 5 =
      (MutOutcome.redirectDetail (Post.mk 5 "e" 1 0 true none none).id,
        [Post.mk 5 "e" 1 0 true none none]) :=
  C5_nonauthor_redirect [Post.mk 5 "e" 1 0 true none none] 2 5
    (Post.mk 5 "e" 1 0 true none none) (fun p => { p with title := "x" })
    (by decide) (by decide)

/-- LoginRequiredMixin followed by CommentMixin.dispatch (views.py):
get_object_or_404 looks the comment up by pk AND author=request.user AND the
post pk, so a comment that exists but belongs to another author is simply
not found. -/
def comment_mixin_dispatch (comments : List Comment) (requester : Option Nat)
    (comment_id : Nat) (post_id : Nat) : MutOutcome :=
  match requester with
  | none => .redirectLogin
  | some u =>
    match comments.find? (fun c =>
        c.id == comment_id && c.author == u && c.post_id == post_id) with
    | none => .http404
    | some _ => .proceeded

/-- C6: the claim states an authenticated non-author asking to edit or delete
a comment is redirected to the post's detail page; the code answers Http404
because the author is part of the object lookup. -/
theorem C6_counterexample :
    comment_mixin_dispatch [Comment.mk 1 "t" 5 1 0] (some 2) 1 5 =
        MutOutcome.http404 ∧
      MutOutcome.http404 ≠ MutOutcome.redirectDetail 5 := by
  decide

/-- C6 (amended): an authenticated requester who authors none of the stored
comments bearing the requested comment id receives HTTP 404 on an edit or
delete attempt, not a redirect. -/
theorem C6_amended (comments : List Comment) (u : Nat) (comment_id : Nat)
    (post_id : Nat)
    (h : ∀ c ∈ comments, c.id = comment_id → c.author ≠ u) :
    comment_mixin_dispatch comments (some u) comment_id post_id =
      MutOutcome.http404 := by
  have hn : comments.find? (fun c =>
      c.id == comment_id && c.author == u && c.post_id == post_id) = none := by
    rw [List.find?_eq_none]
    intro c hc
    simp only [Bool.and_eq_true, beq_iff_eq, not_and]
    intro h1
    exact absurd h1.2 (h c hc h1.1)
  simp [comment_mixin_dispatch, hn]

/-- Witness for C6_amended: user 2 attempts to modify user 1's comment. -/
theorem C6_amended_witness :
    comment_mixin_dispatch [Comment.mk 1 "t" 5 1 0] (some 2) 1 5 =
      MutOutcome.http404 :=
  C6_amended [Comment.mk 1 "t" 5 1 0] 2 1 5 (by decide)

/-- add_comment view (views.py): login required; 404 when the post does not
exist; the comment (with author and post attached) is saved only when the
form is valid; in EVERY remaining case the response is a redirect to the
post's detail page — the function never re-renders the form. -/
def add_comment (db : List Post) (comments : List Comment)
    (requester : Option Nat) (post_id : Nat) (valid : Bool) (newc : Comment) :
    MutOutcome × List Comment :=
  match requester with
  | none => (.redirectLogin, comments)
  | some u =>
    match db.find? (fun p => p.id == post_id) with
    | none => (.http404, comments)
    | some _ =>
      if valid then
        (.redirectDetail post_id,
          comments ++ [{ newc with author := u, post_id := post_id }])
      else (.redirectDetail post_id, comments)

/-- C7: the claim states an invalid comment submission redisplays the form
with validation errors; the code instead redirects to the post's detail
page. -/
theorem C7_counterexample :
    (add_comment [Post.mk 6 "f" 1 0 true none none] [] (some 2) 6 false
        (Comment.mk 9 "" 0 0 0)).fst = MutOutcome.redirectDetail 6 ∧
      MutOutcome.redirectDetail 6 ≠ MutOutcome.redisplayForm := by
  decide

/-- C7 (amended): an invalid comment submission by an authenticated user on
an existing post stores no comment and is answered with a redirect to the
post's detail page, not a redisplayed form. -/
theorem C7_amended (db : List Post) (comments : List Comment) (u : Nat)
    (post_id : Nat) (newc : Comment) (p : Post)
    (hf : db.find? (fun q => q.id == post_id) = some p) :
    add_comment db comments (some u) post_id false newc =
      (MutOutcome.redirectDetail post_id, comments) := by
  unfold add_comment
  rw [hf]
  simp

/-- Witness for C7_amended at a concrete post and invalid submission. -/
theorem C7_amended_witness :
    add_comment [Post.mk 6 "f" 1 0 true none none] [] (some 2) 6 false
        (Comment.mk 9 "" 0 0 0) = (MutOutcome.redirectDetail 6, []) :=
  C7_amended [Post.mk 6 "f" 1 0 true none none] [] 2 6
    (Comment.mk 9 "" 0 0 0) (Post.mk 6 "f" 1 0 true none none) (by decide)

/-- Page number chosen by django.core.paginator.Paginator.get_page: absent or
invalid numbers fall back to page 1, numbers out of range fall back to the
last page (page count is at least 1). -/
def pageNumber (length : Nat) (per_page : Nat) (page : Option Nat) : Nat :=
  let num_pages := max 1 ((length + per_page - 1) / per_page)
  match page with
  | none => 1
  | some k => if k < 1 then num_pages else if k > num_pages then num_pages else k

/-- Paginator page contents: the slice of per_page items starting at the
chosen page. -/
def get_page (l : List Post) (per_page : Nat) (page : Option Nat) : List Post :=
  (l.drop ((pageNumber l.length per_page page - 1) * per_page)).take per_page

/-- IndexListView paginated by settings.POSTS_LIMIT. -/
def index_page (now : Int) (db : List Post) (per_page : Nat)
    (page : Option Nat) : List Post :=
  get_page (index_listing now db) per_page page

/-- category_posts paginated by settings.POSTS_LIMIT. -/
def category_page (now : Int) (cats : List Category) (db : List Post)
    (slug : String) (per_page : Nat) (page : Option Nat) :
    Option (List Post) :=
  (category_posts now cats db slug).map fun l => get_page l per_page page

/-- user_profile paginated by settings.POSTS_LIMIT. -/
def profile_page (now : Int) (users : List Nat) (db : List Post)
    (requester : Option Nat) (username : Nat) (per_page : Nat)
    (page : Option Nat) : Option (List Post) :=
  (user_profile now users db requester username).map fun l =>
    get_page l per_page page

lemma get_page_sublist (l : List Post) (per_page : Nat) (page : Option Nat) :
    List.Sublist (get_page l per_page page) l :=
  ((l.drop ((pageNumber l.length per_page page - 1) * per_page)).take_sublist
    per_page).trans (l.drop_sublist _)

lemma get_page_length_le (l : List Post) (per_page : Nat) (page : Option Nat) :
    (get_page l per_page page).length ≤ per_page := by
  unfold get_page
  simp [List.length_take]

lemma get_page_sorted (l : List Post) (per_page : Nat) (page : Option Nat)
    (h : l.Sorted pubDateDesc) :
    (get_page l per_page page).Sorted pubDateDesc :=
  List.Pairwise.sublist (get_page_sublist l per_page page) h

lemma category_posts_sorted (now : Int) (cats : List Category) (db : List Post)
    (slug : String) (l : List Post)
    (h : category_posts now cats db slug = some l) : l.Sorted pubDateDesc := by
  unfold category_posts at h
  cases hf : cats.find? (fun c => c.slug == slug && c.is_published) with
  | none => rw [hf] at h; exact absurd h (by simp)
  | some c =>
      rw [hf] at h
      have hl := Option.some.inj h
      subst hl
      exact List.sorted_insertionSort _ _

lemma user_profile_sorted (now : Int) (users : List Nat) (db : List Post)
    (requester : Option Nat) (username : Nat) (l : List Post)
    (h : user_profile now users db requester username = some l) :
    l.Sorted pubDateDesc := by
  unfold user_profile at h
  by_cases hm : users.contains username = true
  · rw [if_pos hm] at h
    have hl := Option.some.inj h
    subst hl
    exact List.sorted_insertionSort _ _
  · rw [if_neg hm] at h
    exact absurd h (by simp)

/-- C8: every page of the index, category and profile listings holds at most
per_page posts, and the posts on the page are in descending pub_date order. -/
theorem C8_pagination (now : Int) (cats : List Category) (users : List Nat)
    (db : List Post) (slug : String) (requester : Option Nat) (username : Nat)
    (per_page : Nat) (page : Option Nat) :
    ((index_page now db per_page page).length ≤ per_page ∧
      (index_page now db per_page page).Sorted pubDateDesc) ∧
    (((category_page now cats db slug per_page page).getD []).length ≤ per_page ∧
      ((category_page now cats db slug per_page page).getD []).Sorted
        pubDateDesc) ∧
    (((profile_page now users db requester username per_page page).getD []
        ).length ≤ per_page ∧
      ((profile_page now users db requester username per_page page).getD []
        ).Sorted pubDateDesc) := by
  refine ⟨⟨get_page_length_le _ _ _,
    get_page_sorted _ _ _ (List.sorted_insertionSort _ _)⟩, ?_, ?_⟩
  · unfold category_page
    cases h : category_posts now cats db slug with
    | none => simp
    | some l =>
        simp only [Option.map_some', Option.getD_some]
        exact ⟨get_page_length_le _ _ _,
          get_page_sorted _ _ _ (category_posts_sorted now cats db slug l h)⟩
  · unfold profile_page
    cases h : user_profile now users db requester username with
    | none => simp
    | some l =>
        simp only [Option.map_some', Option.getD_some]
        exact ⟨get_page_length_le _ _ _,
          get_page_sorted _ _ _
            (user_profile_sorted now users db requester username l h)⟩

/-- PostDetailView.get_context_data (views.py): the comments of the displayed
post, retrieved through the related manager in the default Comment.Meta
ordering, created_at ascending. -/
def post_comments (comments : List Comment) (post_id : Nat) : List Comment :=
  (comments.filter fun c => c.post_id == post_id).insertionSort createdAtAsc

/-- C9: the comments retrieved for a post's detail page are exactly the
comments of that post, sorted by creation time ascending. -/
theorem C9_comment_order (comments : List Comment) (post_id : Nat) :
    (post_comments comments post_id).Sorted createdAtAsc ∧
    ∀ c, c ∈ post_comments comments post_id ↔
      c ∈ comments ∧ c.post_id = post_id := by
  refine ⟨List.sorted_insertionSort _ _, fun c => ?_⟩
  simp [post_comments, List.mem_insertionSort, List.mem_filter]

end Blogicum
